import Mathlib

/-!
Shallow embedding of the Medical-App frontend (src/frontend/src/App.jsx and
the API client src/unnamed/part_000 = api.js), together with theorems that
settle the frozen claims about it.

The app is a single React component; its state lives in useState slots and
its operations are event handlers.  Each handler is embedded as a pure
function from the pre-invocation state (plus an environment describing the
outcomes of the network / device calls it awaits) to the post-invocation
state, the list of network calls it issued, and the alert messages it showed.
Handlers that perform synchronous state updates before their first await are
split into a `...Pre` function (the state visible at the moment the network
call is issued) and the full function, so that "before the fetch is issued"
is expressible.
-/

namespace MedicalApp

/-! ## JavaScript primitives used by the source -/

/-- The whitespace characters relevant to the string literals in this app;
models the class stripped by JavaScript `String.prototype.trim`. -/
def jsWhitespace (c : Char) : Bool :=
  c == ' ' || c == '\t' || c == '\n' || c == '\r'

/-- Drop leading characters satisfying `p`. -/
def dropLeading (p : Char → Bool) : List Char → List Char
  | [] => []
  | c :: cs => if p c then dropLeading p cs else c :: cs

/-- Model of JavaScript `s.trim()`: strip whitespace from both ends.
Defined structurally over the character list so it evaluates in the kernel. -/
def jsTrim (s : String) : String :=
  ⟨(dropLeading jsWhitespace (dropLeading jsWhitespace s.data).reverse).reverse⟩

/-- Model of JavaScript `a || b` on numbers, where `0` is the only falsy
numeric value that occurs here (`video.videoWidth || 640`). -/
def jsOrNat (a b : Nat) : Nat := if a == 0 then b else a

/-- Model of JavaScript `s || null` on strings: the empty string is falsy
(`doctor_name: newEncounterDoctor || null`). -/
def jsStringOrNull (s : String) : Option String :=
  if s == "" then none else some s

/-- Does `needle` occur at the head of `hay`?  (List-level, structural.) -/
def startsWithSeq : List Char → List Char → Bool
  | [], _ => true
  | _ :: _, [] => false
  | a :: as, b :: bs => a == b && startsWithSeq as bs

/-- Does `needle` occur anywhere inside `hay`? -/
def containsSeqAux (needle : List Char) : List Char → Bool
  | [] => needle.isEmpty
  | c :: cs => startsWithSeq needle (c :: cs) || containsSeqAux needle cs

/-- `carriesName op msg`: the message `msg` mentions the operation name `op`
as a contiguous substring. -/
def carriesName (op msg : String) : Bool :=
  containsSeqAux op.data msg.data

/-! ## Data model (records as rendered/consumed by App.jsx) -/

/-- A patient record as returned by the search endpoint
(fields read in App.jsx: patient_id, first_name, last_name, date_of_birth,
phone_number). -/
structure Patient where
  patient_id : String
  first_name : String
  last_name : String
  date_of_birth : String
  phone_number : String
deriving DecidableEq

/-- A patient summary as rendered in the Summary tab. -/
structure Summary where
  first_name : String
  last_name : String
  date_of_birth : String
  sex : Option String
  address : Option String
  active_conditions : Option String
  active_medications : Option String
  active_allergies : Option String
  photo_path : Option String
deriving DecidableEq

/-- An encounter record as rendered in the Encounters tab. -/
structure Encounter where
  encounter_id : String
  encounter_date : String
  encounter_type : String
  presenting_complaint : String
deriving DecidableEq

/-- A medication record as rendered in the Meds tab. -/
structure Medication where
  medication_id : String
  drug_name : String
  dose : Option String
  route : Option String
  frequency : Option String
  start_date : Option String
  end_date : Option String
  is_active : Bool
deriving DecidableEq

/-- An allergy record as rendered in the Meds tab. -/
structure Allergy where
  allergy_id : String
  allergen : String
  severity : Option String
  reaction : Option String
  noted_date : Option String
deriving DecidableEq

/-- The optional vitals bundle of a vitals/labs entry.  The numeric values
are kept as the strings printed by the UI; no arithmetic is done on them. -/
structure Vitals where
  systolic_bp : Option String
  diastolic_bp : Option String
  heart_rate : Option String
  temperature_c : Option String
  oxygen_saturation : Option String
deriving DecidableEq

/-- A lab result inside a vitals/labs entry. -/
structure LabResult where
  lab_result_id : String
  test_name : String
  result_value : String
  units : Option String
  reference_range : Option String
deriving DecidableEq

/-- An encounter-keyed vitals/labs entry as rendered in the Vitals tab. -/
structure VitalsLabEntry where
  encounter_id : String
  encounter_date : String
  encounter_type : String
  presenting_complaint : String
  vitals : Option Vitals
  lab_results : List LabResult
deriving DecidableEq

/-- The raster surface content a captured blob was drawn from:
canvas dimensions and JPEG encoder quality (a rational, the literal 0.9
of the source). -/
structure JsBlob where
  width : Nat
  height : Nat
  mimeType : String
  quality : ℚ
deriving DecidableEq

/-- A File object.  A camera capture carries its originating blob; a file
chosen through the file picker has opaque content (`blob := none`). -/
structure JsFile where
  fileName : String
  fileType : String
  blob : Option JsBlob
deriving DecidableEq

/-- The JSON body POSTed by createEncounter
(`{encounter_type, presenting_complaint, doctor_name}`). -/
structure EncounterPayload where
  encounter_type : String
  presenting_complaint : String
  doctor_name : Option String
deriving DecidableEq

/-! ## API client (api.js) -/

/-- Outcome of a `fetch` as observed by the API client: either the promise
rejected (network failure, carrying the runtime's own error message), or a
response arrived with its `ok` flag (true exactly for 2xx statuses) and the
JSON-decoded body. -/
inductive FetchOutcome (β : Type) where
  | networkError (msg : String)
  | response (ok : Bool) (body : β)

/-- `fetch` promise rejected. -/
def isNetworkError {β : Type} : FetchOutcome β → Bool
  | .networkError _ => true
  | .response _ _ => false

/-- A response arrived but with a non-2xx status. -/
def isNonOk {β : Type} : FetchOutcome β → Bool
  | .networkError _ => false
  | .response ok _ => !ok

/-- The embedded call failed (its promise rejected). -/
def fetchFailed {β : Type} : Except String β → Bool
  | .error _ => true
  | .ok _ => false

/-- The embedded call failed with an error whose message mentions the given
operation name. -/
def errorCarriesOpName {β : Type} (op : String) : Except String β → Bool
  | .error msg => carriesName op msg
  | .ok _ => false

/-- api.js searchPatients: GET /patients/search; throws
"Failed to search patients" on a non-ok response, else returns the body. -/
def searchPatients (env : FetchOutcome (List Patient)) : Except String (List Patient) :=
  match env with
  | .networkError m => .error m
  | .response ok body => if ok then .ok body else .error "Failed to search patients"

/-- api.js getPatientSummary: GET /patients/id/summary. -/
def getPatientSummary (env : FetchOutcome Summary) : Except String Summary :=
  match env with
  | .networkError m => .error m
  | .response ok body => if ok then .ok body else .error "Failed to fetch patient summary"

/-- api.js getPatientEncounters: GET /patients/id/encounters. -/
def getPatientEncounters (env : FetchOutcome (List Encounter)) : Except String (List Encounter) :=
  match env with
  | .networkError m => .error m
  | .response ok body => if ok then .ok body else .error "Failed to fetch encounters"

/-- api.js getPatientMedications: GET /patients/id/medications. -/
def getPatientMedications (env : FetchOutcome (List Medication)) : Except String (List Medication) :=
  match env with
  | .networkError m => .error m
  | .response ok body => if ok then .ok body else .error "Failed to fetch medications"

/-- api.js getPatientAllergies: GET /patients/id/allergies. -/
def getPatientAllergies (env : FetchOutcome (List Allergy)) : Except String (List Allergy) :=
  match env with
  | .networkError m => .error m
  | .response ok body => if ok then .ok body else .error "Failed to fetch allergies"

/-- api.js getPatientVitalsLabs: GET /patients/id/vitals-labs. -/
def getPatientVitalsLabs (env : FetchOutcome (List VitalsLabEntry)) :
    Except String (List VitalsLabEntry) :=
  match env with
  | .networkError m => .error m
  | .response ok body => if ok then .ok body else .error "Failed to fetch vitals/labs"

/-- api.js uploadPatientPhoto: POST /patients/id/photo (multipart, field
"file"); the success body is the updated Patient record. -/
def uploadPatientPhoto (patientId : String) (file : JsFile)
    (env : FetchOutcome Patient) : Except String Patient :=
  match env with
  | .networkError m => .error m
  | .response ok body => if ok then .ok body else .error "Failed to upload photo"

/-- api.js createEncounter: POST /patients/id/encounters with a JSON
payload; the success body is the created Encounter record. -/
def createEncounter (patientId : String) (payload : EncounterPayload)
    (env : FetchOutcome Encounter) : Except String Encounter :=
  match env with
  | .networkError m => .error m
  | .response ok body => if ok then .ok body else .error "Failed to create encounter"

/-- The behavior the spec describes for every API-client call, parameterized
by the operation's error message: a network failure propagates as-is, a
non-2xx response fails with the operation's message, a 2xx response returns
the parsed body unchanged (no client-side schema validation). -/
def specApiBehavior {β : Type} (opErrMsg : String) (env : FetchOutcome β) : Except String β :=
  match env with
  | .networkError m => .error m
  | .response ok body => if ok then .ok body else .error opErrMsg

/-! ## Camera capture controller (CameraCapture component) -/

/-- A camera media stream, identified by the ids of its tracks. -/
structure MediaStream where
  tracks : List Nat
deriving DecidableEq

/-- Observable state of the CameraCapture controller: the stream held in
`streamRef` and the `error` message state. -/
structure CamState where
  streamRef : Option MediaStream
  error : String
deriving DecidableEq

/-- Events emitted by the controller, in order: stopping a track of a held
stream, and issuing a getUserMedia request for a facing mode. -/
inductive CamEvent where
  | stopTrack (id : Nat)
  | request (facingMode : String)
deriving DecidableEq

/-- The stop events for every track of a held stream (none when no stream is
held). -/
def trackStopEvents : Option MediaStream → List CamEvent
  | some s => s.tracks.map CamEvent.stopTrack
  | none => []

/-- CameraCapture's startCamera effect body (runs on mount and on every
facingMode change).  It clears the error, stops every track of any held
stream and nulls the ref, then awaits getUserMedia for the facing mode
(`acquisition` is that call's outcome): on success the stream is stored, on
failure a user-facing error message is set and no stream is held.
Returns the new controller state and the ordered event trace. -/
def startCamera (st : CamState) (facingMode : String)
    (acquisition : Except String MediaStream) : CamState × List CamEvent :=
  let stops := trackStopEvents st.streamRef
  match acquisition with
  | .ok stream =>
      ({ streamRef := some stream, error := "" },
       stops ++ [CamEvent.request facingMode])
  | .error _ =>
      ({ streamRef := none,
         error := "Unable to access camera. Check permissions or try a different device." },
       stops ++ [CamEvent.request facingMode])

/-- The mounted video element, reporting the stream's native dimensions. -/
structure VideoElement where
  videoWidth : Nat
  videoHeight : Nat
deriving DecidableEq

/-- CameraCapture's handleCaptureClick: returns nothing when no video
element is mounted or when toBlob yields no blob (`blobProduced = false`);
otherwise sizes a canvas to `videoWidth || 640` by `videoHeight || 480`,
encodes it as image/jpeg at quality 0.9, and wraps the blob in a File named
"camera_capture.jpg" handed to onCapture. -/
def handleCaptureClick (video : Option VideoElement) (blobProduced : Bool) : Option JsFile :=
  match video with
  | none => none
  | some video =>
    let width := jsOrNat video.videoWidth 640
    let height := jsOrNat video.videoHeight 480
    if blobProduced then
      some { fileName := "camera_capture.jpg", fileType := "image/jpeg",
             blob := some { width := width, height := height,
                            mimeType := "image/jpeg", quality := 9/10 } }
    else none

/-! ## App component state and handlers -/

/-- The useState slots of the App component. -/
structure AppState where
  staffToken : Option String
  staffRole : String
  name : String
  dob : String
  patients : List Patient
  selectedPatient : Option Patient
  summary : Option Summary
  encounters : List Encounter
  medications : List Medication
  allergies : List Allergy
  vitalsLabs : List VitalsLabEntry
  loading : Bool
  error : String
  activeTab : String
  newEncounterType : String
  newEncounterComplaint : String
  newEncounterDoctor : String
  photoFile : Option JsFile
  uploadingPhoto : Bool
  showCamera : Bool
  loginRole : String
deriving DecidableEq

/-- A network request issued by a handler, with the arguments it was given. -/
inductive ApiCall where
  | search (name dob : String)
  | getSummary (patient_id : String)
  | getEncounters (patient_id : String)
  | getMedications (patient_id : String)
  | getAllergies (patient_id : String)
  | getVitalsLabs (patient_id : String)
  | createEnc (patient_id : String) (payload : EncounterPayload)
  | uploadPhoto (patient_id : String) (file : JsFile)
deriving DecidableEq

/-- Result of running a handler: the new component state, the network calls
it issued in order, and the alert messages it showed. -/
structure HandlerResult where
  state : AppState
  calls : List ApiCall
  alerts : List String
deriving DecidableEq

/-- The role capability flag: true exactly for the two mutation-capable
roles ("Field doctor", "Hospital admin"); the third role option is
"Policy maker". -/
def canEditClinical (st : AppState) : Bool :=
  st.staffRole == "Field doctor" || st.staffRole == "Hospital admin"

/-- handleLogin: marks the user as logged in with the chosen role. -/
def handleLogin (st : AppState) : AppState :=
  { st with staffToken := some "demo-token", staffRole := st.loginRole }

/-- The logout button's onClick handler: clears the token, role, results
list, selection, and summary. -/
def handleLogout (st : AppState) : AppState :=
  { st with staffToken := none, staffRole := "", patients := [],
            selectedPatient := none, summary := none }

/-- handleSearch's synchronous prefix: the state visible at the moment
searchPatients is awaited.  Clears the error, sets loading, clears the
selection and all five detail slots, and resets the tab. -/
def handleSearchPre (st : AppState) : AppState :=
  { st with error := "", loading := true, selectedPatient := none,
            summary := none, encounters := [], medications := [],
            allergies := [], vitalsLabs := [], activeTab := "summary" }

/-- handleSearch: after the synchronous clearing, awaits
searchPatients(name.trim(), dob.trim()) (outcome `env`); on success stores
the results (with a "No patients found" error when empty), on failure sets a
search error; loading is reset in the finally block. -/
def handleSearch (st : AppState) (env : Except String (List Patient)) :
    AppState × List ApiCall :=
  let st1 := handleSearchPre st
  let calls := [ApiCall.search (jsTrim st.name) (jsTrim st.dob)]
  match env with
  | .ok results =>
      ({ st1 with patients := results,
                  error := if results.length == 0 then "No patients found" else st1.error,
                  loading := false }, calls)
  | .error _ =>
      ({ st1 with error := "Error searching patients", loading := false }, calls)

/-- Outcomes of the five joined detail fetches awaited by loadDetails. -/
structure DetailFetchEnv where
  summaryRes : Except String Summary
  encountersRes : Except String (List Encounter)
  medicationsRes : Except String (List Medication)
  allergiesRes : Except String (List Allergy)
  vitalsLabsRes : Except String (List VitalsLabEntry)

/-- loadDetails' synchronous prefix: the state visible at the moment the
five detail fetches are issued.  Sets the selection, loading flag, clears
the error, resets the tab — and touches none of the five detail slots. -/
def loadDetailsPre (st : AppState) (patient : Patient) : AppState :=
  { st with selectedPatient := some patient, loading := true, error := "",
            activeTab := "summary" }

/-- loadDetails: selects the patient, then awaits Promise.all of the five
detail fetches.  When all five succeed their results replace the five
slots; when any fails, Promise.all rejects and the single catch sets one
combined error, leaving every slot untouched.  loading is reset in the
finally block. -/
def loadDetails (st : AppState) (patient : Patient) (env : DetailFetchEnv) :
    AppState × List ApiCall :=
  let st1 := loadDetailsPre st patient
  let calls := [ApiCall.getSummary patient.patient_id,
                ApiCall.getEncounters patient.patient_id,
                ApiCall.getMedications patient.patient_id,
                ApiCall.getAllergies patient.patient_id,
                ApiCall.getVitalsLabs patient.patient_id]
  match env.summaryRes, env.encountersRes, env.medicationsRes,
        env.allergiesRes, env.vitalsLabsRes with
  | .ok s, .ok e, .ok meds, .ok alls, .ok vitLabs =>
      ({ st1 with summary := some s, encounters := e, medications := meds,
                  allergies := alls, vitalsLabs := vitLabs, loading := false }, calls)
  | _, _, _, _, _ =>
      ({ st1 with error := "Error loading patient details", loading := false }, calls)

/-- Outcomes of the two awaits inside handlePhotoUpload. -/
structure PhotoUploadEnv where
  uploadRes : Except String Patient
  summaryRes : Except String Summary

/-- handlePhotoUpload(fileOverride): uses the override file when given, else
the picked photoFile; returns silently when no patient is selected or no
file is available; refuses with an alert under a read-only role; otherwise
uploads the file and, on success, re-fetches the summary and replaces the
stored summary with the fresh record (clearing the picked file only on the
picker path). -/
def handlePhotoUpload (st : AppState) (fileOverride : Option JsFile)
    (env : PhotoUploadEnv) : HandlerResult :=
  let fileToUse := match fileOverride with
    | some f => some f
    | none => st.photoFile
  match st.selectedPatient, fileToUse with
  | some selectedPatient, some fileToUse =>
    if !(canEditClinical st) then
      ⟨st, [], ["This role has read-only access and cannot change photos."]⟩
    else
      match env.uploadRes with
      | .error _ =>
          ⟨{ st with uploadingPhoto := false },
           [ApiCall.uploadPhoto selectedPatient.patient_id fileToUse],
           ["Failed to upload photo"]⟩
      | .ok _ =>
        match env.summaryRes with
        | .error _ =>
            ⟨{ st with uploadingPhoto := false },
             [ApiCall.uploadPhoto selectedPatient.patient_id fileToUse,
              ApiCall.getSummary selectedPatient.patient_id],
             ["Failed to upload photo"]⟩
        | .ok freshSummary =>
            ⟨{ st with summary := some freshSummary, uploadingPhoto := false,
                       photoFile := if fileOverride.isNone then none else st.photoFile },
             [ApiCall.uploadPhoto selectedPatient.patient_id fileToUse,
              ApiCall.getSummary selectedPatient.patient_id],
             []⟩
  | _, _ => ⟨st, [], []⟩

/-- The CameraCapture onCapture wiring in App's JSX: uploads immediately
with the captured file through handlePhotoUpload, then hides the camera. -/
def cameraOnCapture (st : AppState) (file : JsFile) (env : PhotoUploadEnv) :
    HandlerResult :=
  let r := handlePhotoUpload st (some file) env
  { r with state := { r.state with showCamera := false } }

/-- Outcomes of the two awaits inside handleCreateEncounter. -/
structure CreateEncounterEnv where
  createRes : Except String Encounter
  refetchRes : Except String (List Encounter)

/-- handleCreateEncounter: refuses with an alert under a read-only role
(before anything else); returns silently with no patient selected; rejects a
complaint that is empty after trimming with a validation alert; otherwise
POSTs the payload (doctor name normalized to null when blank), re-fetches
the encounter list and stores it, and resets the form.  Either await
failing lands in the single catch with one alert. -/
def handleCreateEncounter (st : AppState) (env : CreateEncounterEnv) : HandlerResult :=
  if !(canEditClinical st) then
    ⟨st, [], ["This role has read-only access and cannot add encounters."]⟩
  else
    match st.selectedPatient with
    | none => ⟨st, [], []⟩
    | some selectedPatient =>
      if jsTrim st.newEncounterComplaint == "" then
        ⟨st, [], ["Enter presenting complaint"]⟩
      else
        let payload : EncounterPayload :=
          { encounter_type := st.newEncounterType,
            presenting_complaint := st.newEncounterComplaint,
            doctor_name := jsStringOrNull st.newEncounterDoctor }
        match env.createRes with
        | .error _ =>
            ⟨st, [ApiCall.createEnc selectedPatient.patient_id payload],
             ["Failed to add encounter"]⟩
        | .ok _ =>
          match env.refetchRes with
          | .error _ =>
              ⟨st, [ApiCall.createEnc selectedPatient.patient_id payload,
                    ApiCall.getEncounters selectedPatient.patient_id],
               ["Failed to add encounter"]⟩
          | .ok updated =>
              ⟨{ st with encounters := updated, newEncounterComplaint := "",
                         newEncounterDoctor := "", newEncounterType := "A&E" },
               [ApiCall.createEnc selectedPatient.patient_id payload,
                ApiCall.getEncounters selectedPatient.patient_id],
               []⟩

/-! ## Concrete sample values used by witnesses and counterexamples -/

/-- A sample patient. -/
def samplePatient : Patient :=
  ⟨"p1", "Jane", "Doe", "1990-01-01", "0700000000"⟩

/-- A second sample patient, for reselection scenarios. -/
def samplePatient2 : Patient :=
  ⟨"p2", "John", "Smith", "1985-05-05", "0711111111"⟩

/-- A sample summary record. -/
def sampleSummary : Summary :=
  ⟨"Jane", "Doe", "1990-01-01", none, none, none, none, none, none⟩

/-- A sample encounter record. -/
def sampleEncounter : Encounter :=
  ⟨"e1", "2026-01-01", "A&E", "Chest pain"⟩

/-- A sample picker file (opaque content). -/
def sampleFile : JsFile :=
  ⟨"photo.jpg", "image/jpeg", none⟩

/-- A camera controller state holding a stream with two tracks. -/
def sampleCamState : CamState :=
  ⟨some ⟨[1, 2]⟩, ""⟩

/-- A logged-in Field doctor state with patient p1 selected and all five
detail slots populated for that selection. -/
def stateWithDetails : AppState where
  staffToken := some "demo-token"
  staffRole := "Field doctor"
  name := "Jane"
  dob := ""
  patients := [samplePatient, samplePatient2]
  selectedPatient := some samplePatient
  summary := some sampleSummary
  encounters := [sampleEncounter]
  medications := []
  allergies := []
  vitalsLabs := []
  loading := false
  error := ""
  activeTab := "summary"
  newEncounterType := "A&E"
  newEncounterComplaint := "Chest pain"
  newEncounterDoctor := ""
  photoFile := none
  uploadingPhoto := false
  showCamera := false
  loginRole := "Field doctor"

/-! ## Claims -/

/-- C1 counterexample.  The claim says that selecting a (possibly different)
patient clears all five detail slots before the fetches are issued, and that
logout clears all five detail slots.  Both fail on the code: from a state
with patient p1 selected and its details loaded, reselecting p2 leaves every
slot holding p1's data at the moment the fetches go out (loadDetails never
clears them), and logging out clears only the summary slot, leaving the
encounters (and the other three slots) intact. -/
theorem C1_counterexample :
    ¬ ((loadDetailsPre stateWithDetails samplePatient2).summary = none ∧
       (loadDetailsPre stateWithDetails samplePatient2).encounters = [] ∧
       (loadDetailsPre stateWithDetails samplePatient2).medications = [] ∧
       (loadDetailsPre stateWithDetails samplePatient2).allergies = [] ∧
       (loadDetailsPre stateWithDetails samplePatient2).vitalsLabs = []) ∧
    ¬ ((handleLogout stateWithDetails).summary = none ∧
       (handleLogout stateWithDetails).encounters = [] ∧
       (handleLogout stateWithDetails).medications = [] ∧
       (handleLogout stateWithDetails).allergies = [] ∧
       (handleLogout stateWithDetails).vitalsLabs = []) := by
  decide

/-- C1, amended to what the code does.  On reselection the five detail slots
are not cleared before the fetches are issued: at that moment they still
hold the previous selection's values, and they are replaced wholesale only
when all five fetches succeed.  On logout the token, results list, selection
and summary slot are cleared, while encounters, medications, allergies and
vitals/labs are retained. -/
theorem C1_reselection_and_logout (st : AppState) (patient : Patient)
    (s : Summary) (e : List Encounter) (meds : List Medication)
    (alls : List Allergy) (vitLabs : List VitalsLabEntry) :
    ((loadDetailsPre st patient).selectedPatient = some patient ∧
     (loadDetailsPre st patient).summary = st.summary ∧
     (loadDetailsPre st patient).encounters = st.encounters ∧
     (loadDetailsPre st patient).medications = st.medications ∧
     (loadDetailsPre st patient).allergies = st.allergies ∧
     (loadDetailsPre st patient).vitalsLabs = st.vitalsLabs) ∧
    ((loadDetails st patient ⟨.ok s, .ok e, .ok meds, .ok alls, .ok vitLabs⟩).1.summary = some s ∧
     (loadDetails st patient ⟨.ok s, .ok e, .ok meds, .ok alls, .ok vitLabs⟩).1.encounters = e ∧
     (loadDetails st patient ⟨.ok s, .ok e, .ok meds, .ok alls, .ok vitLabs⟩).1.medications = meds ∧
     (loadDetails st patient ⟨.ok s, .ok e, .ok meds, .ok alls, .ok vitLabs⟩).1.allergies = alls ∧
     (loadDetails st patient ⟨.ok s, .ok e, .ok meds, .ok alls, .ok vitLabs⟩).1.vitalsLabs = vitLabs) ∧
    ((handleLogout st).staffToken = none ∧
     (handleLogout st).patients = [] ∧
     (handleLogout st).selectedPatient = none ∧
     (handleLogout st).summary = none ∧
     (handleLogout st).encounters = st.encounters ∧
     (handleLogout st).medications = st.medications ∧
     (handleLogout st).allergies = st.allergies ∧
     (handleLogout st).vitalsLabs = st.vitalsLabs) := by
  refine ⟨⟨rfl, rfl, rfl, rfl, rfl, rfl⟩, ⟨rfl, rfl, rfl, rfl, rfl⟩,
          rfl, rfl, rfl, rfl, rfl, rfl, rfl, rfl⟩

/-- C2: whenever at least one of the five joined detail fetches fails, the
single combined error message is set and none of the five detail slots is
updated — each still holds exactly its pre-invocation value. -/
theorem C2_join_failure_no_partial (st : AppState) (patient : Patient)
    (env : DetailFetchEnv)
    (hFail : fetchFailed env.summaryRes = true ∨ fetchFailed env.encountersRes = true ∨
             fetchFailed env.medicationsRes = true ∨ fetchFailed env.allergiesRes = true ∨
             fetchFailed env.vitalsLabsRes = true) :
    (loadDetails st patient env).1.error = "Error loading patient details" ∧
    (loadDetails st patient env).1.summary = st.summary ∧
    (loadDetails st patient env).1.encounters = st.encounters ∧
    (loadDetails st patient env).1.medications = st.medications ∧
    (loadDetails st patient env).1.allergies = st.allergies ∧
    (loadDetails st patient env).1.vitalsLabs = st.vitalsLabs := by
  obtain ⟨sr, er, mr, ar, vr⟩ := env
  cases sr <;> cases er <;> cases mr <;> cases ar <;> cases vr <;>
    simp_all [loadDetails, loadDetailsPre, fetchFailed]

/-- C2 witness: a concrete selection in which the summary fetch fails while
the other four succeed: the combined error is set and every slot keeps the
previously selected patient's value. -/
theorem C2_witness :
    (loadDetails stateWithDetails samplePatient2
      ⟨.error "Failed to fetch patient summary", .ok [], .ok [], .ok [], .ok []⟩).1.error =
        "Error loading patient details" ∧
    (loadDetails stateWithDetails samplePatient2
      ⟨.error "Failed to fetch patient summary", .ok [], .ok [], .ok [], .ok []⟩).1.summary =
        stateWithDetails.summary ∧
    (loadDetails stateWithDetails samplePatient2
      ⟨.error "Failed to fetch patient summary", .ok [], .ok [], .ok [], .ok []⟩).1.encounters =
        stateWithDetails.encounters ∧
    (loadDetails stateWithDetails samplePatient2
      ⟨.error "Failed to fetch patient summary", .ok [], .ok [], .ok [], .ok []⟩).1.medications =
        stateWithDetails.medications ∧
    (loadDetails stateWithDetails samplePatient2
      ⟨.error "Failed to fetch patient summary", .ok [], .ok [], .ok [], .ok []⟩).1.allergies =
        stateWithDetails.allergies ∧
    (loadDetails stateWithDetails samplePatient2
      ⟨.error "Failed to fetch patient summary", .ok [], .ok [], .ok [], .ok []⟩).1.vitalsLabs =
        stateWithDetails.vitalsLabs :=
  C2_join_failure_no_partial stateWithDetails samplePatient2
    ⟨.error "Failed to fetch patient summary", .ok [], .ok [], .ok [], .ok []⟩
    (Or.inl (by decide))

/-- C10: every search submission clears the selection and all five detail
slots in its synchronous prefix — i.e. before the search call is issued —
and whatever the search's outcome, the completed handler leaves no patient
selected and every detail slot empty. -/
theorem C10_search_clears_selection (st : AppState)
    (env : Except String (List Patient)) :
    ((handleSearchPre st).selectedPatient = none ∧
     (handleSearchPre st).summary = none ∧
     (handleSearchPre st).encounters = [] ∧
     (handleSearchPre st).medications = [] ∧
     (handleSearchPre st).allergies = [] ∧
     (handleSearchPre st).vitalsLabs = []) ∧
    (handleSearch st env).2 = [ApiCall.search (jsTrim st.name) (jsTrim st.dob)] ∧
    ((handleSearch st env).1.selectedPatient = none ∧
     (handleSearch st env).1.summary = none ∧
     (handleSearch st env).1.encounters = [] ∧
     (handleSearch st env).1.medications = [] ∧
     (handleSearch st env).1.allergies = [] ∧
     (handleSearch st env).1.vitalsLabs = []) := by
  cases env <;> simp [handleSearch, handleSearchPre]

/-- C3: the capability flag is true for exactly the two mutation-capable
roles of the three and false for the read-only role; a submission under a
read-only capability is refused with the permission alert and issues zero
network calls; a submission under a mutation-capable role with a selected
patient and a valid complaint issues exactly one create call followed by
exactly one re-fetch of the encounter list, whose result replaces the
stored encounters. -/
theorem C3_role_gated_create (st : AppState) (patient : Patient)
    (env : CreateEncounterEnv) (enc : Encounter) (updated : List Encounter) :
    (canEditClinical st = true ↔
       (st.staffRole = "Field doctor" ∨ st.staffRole = "Hospital admin")) ∧
    (st.staffRole = "Policy maker" → canEditClinical st = false) ∧
    (canEditClinical st = false →
       handleCreateEncounter st env =
         ⟨st, [], ["This role has read-only access and cannot add encounters."]⟩) ∧
    (canEditClinical st = true → st.selectedPatient = some patient →
     jsTrim st.newEncounterComplaint ≠ "" →
       (handleCreateEncounter st ⟨.ok enc, .ok updated⟩).calls =
         [ApiCall.createEnc patient.patient_id
            ⟨st.newEncounterType, st.newEncounterComplaint,
             jsStringOrNull st.newEncounterDoctor⟩,
          ApiCall.getEncounters patient.patient_id] ∧
       (handleCreateEncounter st ⟨.ok enc, .ok updated⟩).state.encounters = updated) := by
  refine ⟨?_, ?_, ?_, ?_⟩
  · simp [canEditClinical]
  · intro h
    simp [canEditClinical, h]
  · intro h
    simp [handleCreateEncounter, h]
  · intro hRole hSel hComplaint
    have hc : (jsTrim st.newEncounterComplaint == "") = false :=
      beq_eq_false_iff_ne.mpr hComplaint
    simp [handleCreateEncounter, hRole, hSel, hc]

/-- C3 witness: a Policy maker submission is refused with no calls; a Field
doctor submission with patient p1 selected and complaint "Chest pain"
issues the create call then the encounter re-fetch and stores the
re-fetched list. -/
theorem C3_witness :
    handleCreateEncounter { stateWithDetails with staffRole := "Policy maker" }
        ⟨.ok sampleEncounter, .ok [sampleEncounter]⟩ =
      ⟨{ stateWithDetails with staffRole := "Policy maker" }, [],
       ["This role has read-only access and cannot add encounters."]⟩ ∧
    (handleCreateEncounter stateWithDetails
        ⟨.ok sampleEncounter, .ok [sampleEncounter]⟩).calls =
      [ApiCall.createEnc "p1" ⟨"A&E", "Chest pain", none⟩,
       ApiCall.getEncounters "p1"] ∧
    (handleCreateEncounter stateWithDetails
        ⟨.ok sampleEncounter, .ok [sampleEncounter]⟩).state.encounters =
      [sampleEncounter] := by
  refine ⟨?_, ?_, ?_⟩
  · exact (C3_role_gated_create { stateWithDetails with staffRole := "Policy maker" }
      samplePatient ⟨.ok sampleEncounter, .ok [sampleEncounter]⟩ sampleEncounter
      [sampleEncounter]).2.2.1 (by decide)
  · exact ((C3_role_gated_create stateWithDetails samplePatient
      ⟨.ok sampleEncounter, .ok [sampleEncounter]⟩ sampleEncounter
      [sampleEncounter]).2.2.2 (by decide) (by decide) (by decide)).1.trans (by decide)
  · exact ((C3_role_gated_create stateWithDetails samplePatient
      ⟨.ok sampleEncounter, .ok [sampleEncounter]⟩ sampleEncounter
      [sampleEncounter]).2.2.2 (by decide) (by decide) (by decide)).2

/-- C4: a mutation-capable submission with a selected patient whose
presenting complaint is empty after trimming is rejected with the
validation alert, zero network calls, and an unchanged state. -/
theorem C4_whitespace_complaint (st : AppState) (patient : Patient)
    (env : CreateEncounterEnv)
    (hRole : canEditClinical st = true)
    (hSel : st.selectedPatient = some patient)
    (hBlank : jsTrim st.newEncounterComplaint = "") :
    handleCreateEncounter st env = ⟨st, [], ["Enter presenting complaint"]⟩ := by
  simp [handleCreateEncounter, hRole, hSel, hBlank]

/-- C4 witness: a Field doctor submitting a complaint of three spaces gets
the validation alert, no calls, no state change. -/
theorem C4_witness :
    handleCreateEncounter { stateWithDetails with newEncounterComplaint := "   " }
        ⟨.ok sampleEncounter, .ok []⟩ =
      ⟨{ stateWithDetails with newEncounterComplaint := "   " }, [],
       ["Enter presenting complaint"]⟩ :=
  C4_whitespace_complaint { stateWithDetails with newEncounterComplaint := "   " }
    samplePatient ⟨.ok sampleEncounter, .ok []⟩ (by decide) (by decide) (by decide)

/-- C9: every submission that reaches the create call sends a normalized
doctor-name field in the payload — null when the field is blank, the
entered text otherwise. -/
theorem C9_doctor_name_normalized (st : AppState) (patient : Patient)
    (env : CreateEncounterEnv)
    (hRole : canEditClinical st = true)
    (hSel : st.selectedPatient = some patient)
    (hComplaint : jsTrim st.newEncounterComplaint ≠ "") :
    (st.newEncounterDoctor = "" →
       (handleCreateEncounter st env).calls.head? =
         some (ApiCall.createEnc patient.patient_id
           ⟨st.newEncounterType, st.newEncounterComplaint, none⟩)) ∧
    (st.newEncounterDoctor ≠ "" →
       (handleCreateEncounter st env).calls.head? =
         some (ApiCall.createEnc patient.patient_id
           ⟨st.newEncounterType, st.newEncounterComplaint,
            some st.newEncounterDoctor⟩)) := by
  have hc : (jsTrim st.newEncounterComplaint == "") = false :=
    beq_eq_false_iff_ne.mpr hComplaint
  obtain ⟨cr, rr⟩ := env
  constructor
  · intro hd
    cases cr <;> cases rr <;>
      simp [handleCreateEncounter, hRole, hSel, hc, jsStringOrNull, hd]
  · intro hd
    have hd' : (st.newEncounterDoctor == "") = false := beq_eq_false_iff_ne.mpr hd
    cases cr <;> cases rr <;>
      simp [handleCreateEncounter, hRole, hSel, hc, jsStringOrNull, hd']

/-- C9 witness: with the doctor field blank the payload carries null; with
the doctor field "Ameyo" the payload carries it as entered. -/
theorem C9_witness :
    (handleCreateEncounter stateWithDetails
        ⟨.ok sampleEncounter, .ok []⟩).calls.head? =
      some (ApiCall.createEnc "p1" ⟨"A&E", "Chest pain", none⟩) ∧
    (handleCreateEncounter { stateWithDetails with newEncounterDoctor := "Ameyo" }
        ⟨.ok sampleEncounter, .ok []⟩).calls.head? =
      some (ApiCall.createEnc "p1" ⟨"A&E", "Chest pain", some "Ameyo"⟩) := by
  constructor
  · exact ((C9_doctor_name_normalized stateWithDetails samplePatient
      ⟨.ok sampleEncounter, .ok []⟩ (by decide) (by decide) (by decide)).1
      (by decide)).trans (by decide)
  · exact ((C9_doctor_name_normalized
      { stateWithDetails with newEncounterDoctor := "Ameyo" } samplePatient
      ⟨.ok sampleEncounter, .ok []⟩ (by decide) (by decide) (by decide)).2
      (by decide)).trans (by decide)

/-- C5: capturing a still frame with a video element mounted produces (when
the encoder yields a blob) a file named camera_capture.jpg of type
image/jpeg whose raster surface is the stream's native width and height,
each dimension falling back to the fixed default (640 wide, 480 high)
exactly when the stream reports zero for it, encoded as JPEG at
quality 0.9. -/
theorem C5_capture_frame (video : VideoElement) :
    handleCaptureClick (some video) true =
      some { fileName := "camera_capture.jpg", fileType := "image/jpeg",
             blob := some { width := if video.videoWidth = 0 then 640 else video.videoWidth,
                            height := if video.videoHeight = 0 then 480 else video.videoHeight,
                            mimeType := "image/jpeg", quality := 9/10 } } := by
  simp [handleCaptureClick, jsOrNat, beq_iff_eq]

/-- C6: on every facing-mode change, the event trace is exactly the stop
events for every track of the currently held stream followed by the single
acquisition request — so all stops happen before the request and the
controller never holds two streams at once; and every failed acquisition
leaves no stream held and sets the nonempty user-facing error message. -/
theorem C6_stop_before_request (st : CamState) (facingMode : String)
    (acquisition : Except String MediaStream) :
    (startCamera st facingMode acquisition).2 =
      trackStopEvents st.streamRef ++ [CamEvent.request facingMode] ∧
    (∀ s, st.streamRef = some s →
       ∀ tid ∈ s.tracks, CamEvent.stopTrack tid ∈ trackStopEvents st.streamRef) ∧
    (∀ m, acquisition = .error m →
       (startCamera st facingMode acquisition).1.streamRef = none ∧
       (startCamera st facingMode acquisition).1.error =
         "Unable to access camera. Check permissions or try a different device." ∧
       (startCamera st facingMode acquisition).1.error ≠ "") ∧
    (∀ stream, acquisition = .ok stream →
       (startCamera st facingMode acquisition).1.streamRef = some stream) := by
  refine ⟨?_, ?_, ?_, ?_⟩
  · cases acquisition <;> rfl
  · intro s hs tid htid
    rw [hs]
    exact List.mem_map_of_mem _ htid
  · intro m hm
    subst hm
    refine ⟨rfl, rfl, ?_⟩
    show "Unable to access camera. Check permissions or try a different device." ≠ ""
    decide
  · intro stream hstream
    subst hstream
    rfl

/-- C6 witness: switching to the back camera while holding a two-track
stream emits both stop events before the request, and when the acquisition
fails the controller holds no stream and shows a nonempty error. -/
theorem C6_witness :
    (startCamera sampleCamState "environment" (.error "NotFoundError")).2 =
      [CamEvent.stopTrack 1, CamEvent.stopTrack 2, CamEvent.request "environment"] ∧
    (startCamera sampleCamState "environment" (.error "NotFoundError")).1.streamRef = none ∧
    (startCamera sampleCamState "environment" (.error "NotFoundError")).1.error ≠ "" := by
  refine ⟨?_, ?_, ?_⟩
  · exact ((C6_stop_before_request sampleCamState "environment"
      (.error "NotFoundError")).1).trans (by decide)
  · exact ((C6_stop_before_request sampleCamState "environment"
      (.error "NotFoundError")).2.2.1 "NotFoundError" rfl).1
  · exact ((C6_stop_before_request sampleCamState "environment"
      (.error "NotFoundError")).2.2.1 "NotFoundError" rfl).2.2

/-- C7 counterexample.  The claim's biconditional says the call fails with
an error carrying the operation name exactly when the response is non-2xx
or the network request fails.  On a network failure the fetch promise's own
rejection ("Failed to fetch") propagates out of the client unchanged: the
call fails, but the error does not carry the operation name, refuting the
claimed equivalence at this input. -/
theorem C7_counterexample :
    fetchFailed (searchPatients (.networkError "Failed to fetch")) = true ∧
    errorCarriesOpName "search patients"
      (searchPatients (.networkError "Failed to fetch")) = false := by
  decide

/-- C7, amended.  Every API-client call behaves as specApiBehavior with its
operation's message: it fails exactly when the response is non-2xx or the
network request fails; a non-2xx response produces the fixed message, which
carries the operation name; a 2xx response returns the parsed body as-is
with no validation; a network failure propagates the underlying error
unchanged (so that error need not carry the operation name). -/
theorem C7_api_contract :
    (∀ env : FetchOutcome (List Patient),
       searchPatients env = specApiBehavior "Failed to search patients" env) ∧
    (∀ env : FetchOutcome Summary,
       getPatientSummary env = specApiBehavior "Failed to fetch patient summary" env) ∧
    (∀ env : FetchOutcome (List Encounter),
       getPatientEncounters env = specApiBehavior "Failed to fetch encounters" env) ∧
    (∀ env : FetchOutcome (List Medication),
       getPatientMedications env = specApiBehavior "Failed to fetch medications" env) ∧
    (∀ env : FetchOutcome (List Allergy),
       getPatientAllergies env = specApiBehavior "Failed to fetch allergies" env) ∧
    (∀ env : FetchOutcome (List VitalsLabEntry),
       getPatientVitalsLabs env = specApiBehavior "Failed to fetch vitals/labs" env) ∧
    (∀ (patientId : String) (file : JsFile) (env : FetchOutcome Patient),
       uploadPatientPhoto patientId file env =
         specApiBehavior "Failed to upload photo" env) ∧
    (∀ (patientId : String) (payload : EncounterPayload) (env : FetchOutcome Encounter),
       createEncounter patientId payload env =
         specApiBehavior "Failed to create encounter" env) ∧
    (∀ (β : Type) (msg : String) (env : FetchOutcome β),
       fetchFailed (specApiBehavior msg env) = (isNetworkError env || isNonOk env)) ∧
    (∀ (β : Type) (msg : String) (body : β),
       specApiBehavior msg (.response true body) = .ok body) ∧
    (∀ (β : Type) (msg : String) (body : β),
       specApiBehavior msg (.response false body) = .error msg) ∧
    (∀ (β : Type) (msg m : String),
       specApiBehavior msg (.networkError m) = (.error m : Except String β)) ∧
    (carriesName "search patients" "Failed to search patients" = true ∧
     carriesName "patient summary" "Failed to fetch patient summary" = true ∧
     carriesName "encounters" "Failed to fetch encounters" = true ∧
     carriesName "medications" "Failed to fetch medications" = true ∧
     carriesName "allergies" "Failed to fetch allergies" = true ∧
     carriesName "vitals/labs" "Failed to fetch vitals/labs" = true ∧
     carriesName "upload photo" "Failed to upload photo" = true ∧
     carriesName "create encounter" "Failed to create encounter" = true) := by
  refine ⟨?_, ?_, ?_, ?_, ?_, ?_, ?_, ?_, ?_, ?_, ?_, ?_, ?_⟩
  · intro env; cases env <;> rfl
  · intro env; cases env <;> rfl
  · intro env; cases env <;> rfl
  · intro env; cases env <;> rfl
  · intro env; cases env <;> rfl
  · intro env; cases env <;> rfl
  · intro patientId file env; cases env <;> rfl
  · intro patientId payload env; cases env <;> rfl
  · intro β msg env
    cases env with
    | networkError m => rfl
    | response ok body => cases ok <;> rfl
  · intro β msg body; rfl
  · intro β msg body; rfl
  · intro β msg m; rfl
  · decide

/-- C8: both photo-change entry paths go through the one upload function
handlePhotoUpload with the image as its parameter — the camera wiring calls
it with the captured file and issues exactly the same calls; under a
selected patient and a mutation-capable role, a successful upload is
followed by a summary re-fetch whose fresh record replaces the stored
summary, identically for the captured file and for a picker file. -/
theorem C8_photo_paths_converge (st : AppState) (patient : Patient)
    (file : JsFile) (uploadedPatient : Patient) (freshSummary : Summary)
    (hSel : st.selectedPatient = some patient)
    (hRole : canEditClinical st = true) :
    (cameraOnCapture st file ⟨.ok uploadedPatient, .ok freshSummary⟩).calls =
      (handlePhotoUpload st (some file) ⟨.ok uploadedPatient, .ok freshSummary⟩).calls ∧
    (handlePhotoUpload st (some file) ⟨.ok uploadedPatient, .ok freshSummary⟩).calls =
      [ApiCall.uploadPhoto patient.patient_id file,
       ApiCall.getSummary patient.patient_id] ∧
    (handlePhotoUpload st (some file) ⟨.ok uploadedPatient, .ok freshSummary⟩).state.summary =
      some freshSummary ∧
    (st.photoFile = some file →
       (handlePhotoUpload st none ⟨.ok uploadedPatient, .ok freshSummary⟩).calls =
         [ApiCall.uploadPhoto patient.patient_id file,
          ApiCall.getSummary patient.patient_id] ∧
       (handlePhotoUpload st none ⟨.ok uploadedPatient, .ok freshSummary⟩).state.summary =
         some freshSummary) := by
  refine ⟨rfl, ?_, ?_, ?_⟩
  · simp [handlePhotoUpload, hSel, hRole]
  · simp [handlePhotoUpload, hSel, hRole]
  · intro hpf
    constructor <;> simp [handlePhotoUpload, hSel, hRole, hpf]

/-- C8 witness: with patient p1 selected under a Field doctor, uploading a
captured file issues the upload then the summary re-fetch and stores the
fresh summary; the picker path with the same file stored issues the same
calls. -/
theorem C8_witness :
    (handlePhotoUpload stateWithDetails (some sampleFile)
        ⟨.ok samplePatient, .ok sampleSummary⟩).calls =
      [ApiCall.uploadPhoto "p1" sampleFile, ApiCall.getSummary "p1"] ∧
    (handlePhotoUpload stateWithDetails (some sampleFile)
        ⟨.ok samplePatient, .ok sampleSummary⟩).state.summary = some sampleSummary ∧
    (handlePhotoUpload { stateWithDetails with photoFile := some sampleFile } none
        ⟨.ok samplePatient, .ok sampleSummary⟩).calls =
      [ApiCall.uploadPhoto "p1" sampleFile, ApiCall.getSummary "p1"] := by
  refine ⟨?_, ?_, ?_⟩
  · exact ((C8_photo_paths_converge stateWithDetails samplePatient sampleFile
      samplePatient sampleSummary (by decide) (by decide)).2.1).trans (by decide)
  · exact (C8_photo_paths_converge stateWithDetails samplePatient sampleFile
      samplePatient sampleSummary (by decide) (by decide)).2.2.1
  · exact (((C8_photo_paths_converge
      { stateWithDetails with photoFile := some sampleFile } samplePatient sampleFile
      samplePatient sampleSummary (by decide) (by decide)).2.2.2 (by decide)).1).trans
      (by decide)

end MedicalApp
